import Mathlib

/-!
Shallow embedding of the mail-reader program (package `mail_reader`):
the configuration validation of `MailReader.__init__`, the helpers
`clean_text`, `download_attachment`, `multipart_process`, `body_process`
and `search_messages`, and the fetch loop of `process`.

External library calls (IMAP transport, MIME parsing, the filesystem and
text decoding) are modelled explicitly: the filesystem is a set of
existing directory paths threaded through the functions, writes and log
lines are collected as effect lists, and the result of Python's
`bytes.decode()` on a payload is carried on the part as an `Option`
(`none` when decoding raises).  Python exceptions are modelled with
`Except`.
-/

/-- Bytes of a payload, as `bytes` in Python. -/
abbrev ByteStr := List Nat

/-- Python exceptions that the modelled code can raise. -/
inductive PyError where
  /-- NameError/UnboundLocalError: a local variable referenced before assignment. -/
  | unboundLocal (name : String)
  /-- UnicodeDecodeError from `bytes.decode()`. -/
  | unicodeDecodeError
  /-- AttributeError, e.g. `None.decode()` when `get_payload(decode=True)` is None. -/
  | attributeError
  /-- TypeError, e.g. writing `None` to a binary file. -/
  | typeError
  /-- IndexError, e.g. `messages[0]` on an empty list. -/
  | indexError
  deriving DecidableEq, Repr

/-- Truthiness of a Python value that is either `None` or a string:
`None` and the empty string are falsy. -/
def truthy : Option String → Bool
  | none => false
  | some s => s ≠ ""

/-- Python `str(x)` for a value that is either `None` or a string:
`str(None)` is the string "None". -/
def pyStr : Option String → String
  | none => "None"
  | some s => s

/-- Whether `needle` is the leading segment of `hay` (character lists). -/
def leadsWith : List Char → List Char → Bool
  | [], _ => true
  | _ :: _, [] => false
  | a :: as, b :: bs => a == b && leadsWith as bs

/-- Whether `needle` occurs contiguously inside `hay` (character lists). -/
def containsSub (needle : List Char) : List Char → Bool
  | [] => leadsWith needle []
  | b :: bs => leadsWith needle (b :: bs) || containsSub needle bs

/-- Python's containment test `needle in hay` on strings. -/
def pyIn (needle hay : String) : Bool :=
  containsSub needle.data hay.data

/-- Python's `str.isalnum` on one character.  Python's predicate is
Unicode-wide; this embedding uses the ASCII alphanumeric classifier,
which agrees with Python on every character appearing in the proofs
below (in particular on the underscore, which is not alphanumeric). -/
def pyIsAlnum (ch : Char) : Bool := ch.isAlphanum

/-- One character of `MailReader.clean_text`: the expression
`c if c.isalnum() else "_"`. -/
def cleanChar (ch : Char) : Char := if pyIsAlnum ch then ch else '_'

/-- `MailReader.clean_text`: `"".join(c if c.isalnum() else "_" for c in text)`. -/
def clean_text (text : String) : String :=
  ⟨text.data.map cleanChar⟩

/-- Configuration mapping handed to `MailReader.__init__`.  Each field
models `config.get(key, ...)`: `none` when the key is absent. -/
structure Config where
  user : Option String
  password : Option String
  mail : Option String
  host : Option String
  port : Option Nat
  ssl : Option Bool
  path_attachments : Option String
  deriving DecidableEq, Repr

/-- Modelled from the spec: the constants module `mail_reader.utils.constants`
is not under src.  The spec says a default mail address applies when the key
is absent; the concrete value is a placeholder and no proved property
depends on it. -/
def DEFAULT_MAIL : String := "default@mail"

/-- Modelled from the spec: default host from the missing constants module;
placeholder value, no proved property depends on it. -/
def DEFAULT_HOST : String := "imap.default.host"

/-- Modelled from the spec: default port from the missing constants module;
placeholder value, no proved property depends on it. -/
def DEFAULT_PORT : Nat := 993

/-- Modelled from the spec: default attachment output directory from the
missing constants module; placeholder value, no proved property depends
on it. -/
def DEFAULT_PATH_ATTACHMENTS : String := "attachments"

/-- State of a constructed `MailReader` (the attributes set by `__init__`). -/
structure MailReader where
  user : Option String
  password : Option String
  mail : String
  host : String
  port : Nat
  ssl : Option Bool
  path_attachments : String
  deriving DecidableEq, Repr

/-- `MailReader.__init__`: reads each key with its default, then raises
`Exception("User and password are required")` when user and password are
both falsy (missing or empty). -/
def mailReaderInit (config : Config) : Except String MailReader :=
  let rd : MailReader :=
    { user := config.user
      password := config.password
      mail := config.mail.getD DEFAULT_MAIL
      host := config.host.getD DEFAULT_HOST
      port := config.port.getD DEFAULT_PORT
      ssl := config.ssl
      path_attachments := config.path_attachments.getD DEFAULT_PATH_ATTACHMENTS }
  if !truthy rd.user && !truthy rd.password then
    Except.error "User and password are required"
  else
    Except.ok rd

/-- One MIME part (also used for a non-multipart message body).
`payloadBytes` is `part.get_payload(decode=True)` (`none` when that call
returns None, as it does for container parts); `payloadDecoded` is the
result of calling `.decode()` on those bytes, `none` when decoding
raises. -/
structure MimePart where
  contentType : String
  contentDisposition : Option String
  filename : Option String
  payloadBytes : Option ByteStr
  payloadDecoded : Option String
  deriving DecidableEq, Repr

/-- Python expression `part.get_payload(decode=True).decode()`:
AttributeError when the payload is None, UnicodeDecodeError when the
bytes do not decode, otherwise the decoded text. -/
def decodePayload (p : MimePart) : Except PyError String :=
  match p.payloadBytes with
  | none => Except.error PyError.attributeError
  | some _ =>
    match p.payloadDecoded with
    | none => Except.error PyError.unicodeDecodeError
    | some s => Except.ok s

/-- Filesystem state: the set of directory paths that exist, every path
interpreted relative to the current working directory. -/
structure FS where
  dirs : List String
  deriving DecidableEq, Repr

/-- Python `os.path.isdir(p)`. -/
def isdir (fs : FS) (p : String) : Bool := fs.dirs.contains p

/-- Python `os.mkdir(p)` (callers guard with `isdir`, so the
directory-exists failure mode never arises in the modelled paths). -/
def mkdir (fs : FS) (p : String) : FS := ⟨p :: fs.dirs⟩

/-- `MailReader.download_attachment`: when the part carries a (truthy)
filename and the bare sanitized folder name is not an existing directory,
create the root and subject directory as needed and write the decoded
payload bytes to `<root>/<clean_text(subject)>/<filename>` (the write
with mode "wb" truncates, so an existing file is overwritten).  Returns
the new filesystem and the list of (filepath, bytes) writes performed. -/
def download_attachment (rd : MailReader) (fs : FS) (part : MimePart)
    (subject : String) : Except PyError (FS × List (String × ByteStr)) :=
  match part.filename with
  | none => Except.ok (fs, [])
  | some filename =>
    if filename = "" then Except.ok (fs, [])
    else
      let folder_name := clean_text subject
      if isdir fs folder_name then Except.ok (fs, [])
      else
        let fs1 := if isdir fs rd.path_attachments then fs
                   else mkdir fs rd.path_attachments
        let path := rd.path_attachments ++ "/" ++ folder_name
        let fs2 := if isdir fs1 path then fs1 else mkdir fs1 path
        let filepath := path ++ "/" ++ filename
        match part.payloadBytes with
        | none => Except.error PyError.typeError
        | some b => Except.ok (fs2, [(filepath, b)])

/-- Observable effects of processing one part: log lines emitted at info
level, and (filepath, bytes) file writes. -/
structure Effects where
  logs : List String
  writes : List (String × ByteStr)
  deriving DecidableEq, Repr

/-- `MailReader.multipart_process`: computes the content type and
`str(part.get("Content-Disposition"))`, attempts the payload decode
under `try ... except Exception: pass` (so `body` is bound only when
decoding succeeds), then logs the body for text/plain parts whose
disposition does not contain "attachment" (raising UnboundLocalError
when `body` was never bound), downloads attachment parts, and does
nothing otherwise. -/
def multipart_process (rd : MailReader) (fs : FS) (part : MimePart)
    (subject : String) : Except PyError (FS × Effects) :=
  let content_disposition := pyStr part.contentDisposition
  let bodyOpt : Option String := (decodePayload part).toOption
  if part.contentType = "text/plain" && !pyIn "attachment" content_disposition then
    match bodyOpt with
    | none => Except.error (PyError.unboundLocal "body")
    | some body => Except.ok (fs, ⟨[body], []⟩)
  else if pyIn "attachment" content_disposition then
    match download_attachment rd fs part subject with
    | Except.error e => Except.error e
    | Except.ok (fs2, ws) => Except.ok (fs2, ⟨[], ws⟩)
  else
    Except.ok (fs, ⟨[], []⟩)

/-- `MailReader.body_process`: decodes the payload unconditionally (no
try/except here, so a failure raises), then logs the body when the
content type is text/plain.  Returns the log lines emitted. -/
def body_process (msg : MimePart) : Except PyError (List String) :=
  match decodePayload msg with
  | Except.error e => Except.error e
  | Except.ok body =>
    if msg.contentType = "text/plain" then Except.ok [body]
    else Except.ok []

/-- Python `bytes.split(sep)` with a one-byte explicit separator: every
occurrence splits, empty fields are kept, and the empty byte string
splits to a one-element list holding the empty byte string. -/
def splitByte (sep : Nat) : ByteStr → List ByteStr
  | [] => [[]]
  | b :: rest =>
    if b = sep then [] :: splitByte sep rest
    else
      match splitByte sep rest with
      | [] => [[b]]
      | grp :: gs => (b :: grp) :: gs

/-- `MailReader.search_messages`, given the server response
`status, messages = imap.search(None, criteria)`: on non-OK status it
logs the warning "No messages found!" and returns the empty list;
otherwise it returns `messages[0].split(b" ")`.  The result is the pair
(warnings emitted, identifier list). -/
def search_messages (status : String) (data : List ByteStr) :
    Except PyError (List String × List ByteStr) :=
  if status ≠ "OK" then Except.ok (["No messages found!"], [])
  else
    match data with
    | [] => Except.error PyError.indexError
    | first :: _ => Except.ok ([], splitByte 32 first)

/-- Fetch loop of `MailReader.process`: `for i in messages` issues
`imap.fetch(i, "(RFC822)")` for each identifier returned by
`search_messages`, in order.  Returns the identifiers fetched. -/
def process_fetch_ids (status : String) (data : List ByteStr) :
    Except PyError (List ByteStr) :=
  match search_messages status data with
  | Except.error e => Except.error e
  | Except.ok (_, msgs) => Except.ok msgs

/-- Sample constructed reader used by concrete witnesses below. -/
def sampleReader : MailReader :=
  ⟨some "user", some "secret", "box@mail", "host", 993, none, "attachments"⟩

/-- Sample attachment part carrying a filename and payload bytes. -/
def samplePdf : MimePart :=
  ⟨"application/pdf", some "attachment; filename=report.pdf",
   some "report.pdf", some [37, 80, 68, 70], none⟩

/-- Sample text/plain inline part whose payload bytes do not decode. -/
def undecodableTextPart : MimePart :=
  ⟨"text/plain", some "inline", none, some [255], none⟩

/-- Sample non-multipart message body that is not text/plain and whose
payload bytes do not decode as text. -/
def binaryBody : MimePart :=
  ⟨"image/png", none, none, some [137, 80, 78, 71], none⟩

/-- Sample text/plain non-multipart message body. -/
def helloBody : MimePart :=
  ⟨"text/plain", none, none, some [72], some "Hello world"⟩

/-- Sample attachment part carrying no filename. -/
def noNamePart : MimePart :=
  ⟨"application/pdf", some "attachment", none, some [1, 2, 3], none⟩

/-- Sample text/plain inline part whose payload decodes. -/
def helloPart : MimePart :=
  ⟨"text/plain", some "inline", none, some [72], some "Hello world"⟩

/-- Sample text/html inline part. -/
def htmlPart : MimePart :=
  ⟨"text/html", some "inline", none, some [60], some "<p>hi</p>"⟩

/-- Sample text/plain part with no Content-Disposition header and an
undecodable payload. -/
def noDispUndecodable : MimePart :=
  ⟨"text/plain", none, none, some [254], none⟩

/-- Sample text/plain part with no Content-Disposition header whose
payload decodes. -/
def noDispText : MimePart :=
  ⟨"text/plain", none, none, some [104, 105], some "hi"⟩

/-- Decidable equality for `Except`, so that concrete runs of the model
can be checked by `decide`. -/
instance {ε α : Type} [DecidableEq ε] [DecidableEq α] : DecidableEq (Except ε α) := fun x y =>
  match x, y with
  | Except.error a, Except.error b =>
    if h : a = b then isTrue (by rw [h])
    else isFalse (fun hc => h (Except.error.inj hc))
  | Except.error _, Except.ok _ => isFalse (fun hc => Except.noConfusion hc)
  | Except.ok _, Except.error _ => isFalse (fun hc => Except.noConfusion hc)
  | Except.ok a, Except.ok b =>
    if h : a = b then isTrue (by rw [h])
    else isFalse (fun hc => h (Except.ok.inj hc))

theorem isdir_mkdir_self (fs : FS) (p : String) : isdir (mkdir fs p) p = true := by
  simp [isdir, mkdir]

theorem isdir_mkdir_mono (fs : FS) (p q : String) (h : isdir fs q = true) :
    isdir (mkdir fs p) q = true := by
  simp [isdir, mkdir] at h ⊢
  exact Or.inr h

theorem isdir_ensure_self (fs : FS) (p : String) :
    isdir (if isdir fs p then fs else mkdir fs p) p = true := by
  by_cases h : isdir fs p = true
  · simp [h]
  · simp [h, isdir_mkdir_self]

theorem isdir_ensure_mono (fs : FS) (p q : String) (h : isdir fs q = true) :
    isdir (if isdir fs p then fs else mkdir fs p) q = true := by
  by_cases hp : isdir fs p = true
  · simp [hp, h]
  · simp [hp, isdir_mkdir_mono fs p q h]

theorem download_attachment_ok_aux (rd : MailReader) (fs : FS) (part : MimePart)
    (subject : String) (f : String) (b : ByteStr)
    (hf : part.filename = some f) (hne : f ≠ "")
    (hb : part.payloadBytes = some b)
    (hdir : isdir fs (clean_text subject) = false) :
    ∃ fs2 : FS,
      download_attachment rd fs part subject =
        Except.ok (fs2,
          [(rd.path_attachments ++ "/" ++ clean_text subject ++ "/" ++ f, b)]) ∧
      isdir fs2 rd.path_attachments = true ∧
      isdir fs2 (rd.path_attachments ++ "/" ++ clean_text subject) = true := by
  unfold download_attachment
  rw [hf]
  simp only [hne, if_false, hdir, Bool.false_eq_true, hb]
  refine ⟨_, rfl, ?_, ?_⟩
  · exact isdir_ensure_mono _ _ _ (isdir_ensure_self fs rd.path_attachments)
  · exact isdir_ensure_self _ _

/-- C1 counterexample: for an attachment part that carries a filename,
when a directory whose name is the bare sanitized subject already exists
relative to the current working directory, download_attachment creates
nothing and writes nothing — the configured root directory is not even
created — contradicting the claim that the payload is always written to
`<root>/<clean_text(S)>/<filename>`. -/
theorem download_attachment_bare_dir_counterexample :
    pyIn "attachment" (pyStr samplePdf.contentDisposition) = true ∧
    samplePdf.filename = some "report.pdf" ∧
    clean_text "Q1 Report!" = "Q1_Report_" ∧
    download_attachment sampleReader ⟨["Q1_Report_"]⟩ samplePdf "Q1 Report!" =
      Except.ok (⟨["Q1_Report_"]⟩, []) ∧
    isdir ⟨["Q1_Report_"]⟩ "attachments" = false := by
  decide

/-- C1 (amended): for every part that carries a (non-empty) filename and
decoded payload bytes, under a message with subject S, provided the bare
sanitized folder name `clean_text S` does not already exist as a
directory relative to the current working directory, download_attachment
creates (if absent) the configured root directory and the subdirectory
`<root>/<clean_text(S)>`, and writes the part's decoded payload bytes,
byte-for-byte, to `<root>/<clean_text(S)>/<filename>` (an existing file
of that name is overwritten, the write being a plain truncating binary
write). -/
theorem download_attachment_writes (rd : MailReader) (fs : FS) (part : MimePart)
    (subject : String) (f : String) (b : ByteStr)
    (hf : part.filename = some f) (hne : f ≠ "")
    (hb : part.payloadBytes = some b)
    (hdir : isdir fs (clean_text subject) = false) :
    ∃ fs2 : FS,
      download_attachment rd fs part subject =
        Except.ok (fs2,
          [(rd.path_attachments ++ "/" ++ clean_text subject ++ "/" ++ f, b)]) ∧
      isdir fs2 rd.path_attachments = true ∧
      isdir fs2 (rd.path_attachments ++ "/" ++ clean_text subject) = true :=
  download_attachment_ok_aux rd fs part subject f b hf hne hb hdir

/-- Witness for C1: on an empty filesystem, the sample attachment part
under subject "Q1 Report!" is written to
attachments/Q1_Report_/report.pdf with its exact payload bytes, and both
directories exist afterwards. -/
theorem download_attachment_writes_witness :
    ∃ fs2 : FS,
      download_attachment sampleReader ⟨[]⟩ samplePdf "Q1 Report!" =
        Except.ok (fs2,
          [(sampleReader.path_attachments ++ "/" ++ clean_text "Q1 Report!" ++
             "/" ++ "report.pdf", [37, 80, 68, 70])]) ∧
      isdir fs2 sampleReader.path_attachments = true ∧
      isdir fs2 (sampleReader.path_attachments ++ "/" ++ clean_text "Q1 Report!") = true :=
  download_attachment_writes sampleReader ⟨[]⟩ samplePdf "Q1 Report!"
    "report.pdf" [37, 80, 68, 70] rfl (by decide) rfl (by decide)

/-- C2 (code bug): for a text/plain part whose Content-Disposition does
not contain "attachment" and whose payload fails to decode, the decode
failure is caught by the bare try/except, but the local variable `body`
is then never bound, and the subsequent `logging.info(body)` raises
UnboundLocalError — the part is not silently skipped. -/
theorem multipart_process_decode_failure_raises :
    undecodableTextPart.contentType = "text/plain" ∧
    pyIn "attachment" (pyStr undecodableTextPart.contentDisposition) = false ∧
    decodePayload undecodableTextPart = Except.error PyError.unicodeDecodeError ∧
    multipart_process sampleReader ⟨[]⟩ undecodableTextPart "Subject" =
      Except.error (PyError.unboundLocal "body") := by
  decide

/-- C3: MailReader construction raises the configuration error exactly
when both user and password are missing or empty; when at least one of
them is present and non-empty, construction succeeds and the remaining
fields are filled from the configuration with defaults. -/
theorem mailReaderInit_iff_spec (config : Config) :
    (mailReaderInit config = Except.error "User and password are required" ↔
      truthy config.user = false ∧ truthy config.password = false) ∧
    (truthy config.user = true ∨ truthy config.password = true →
      mailReaderInit config = Except.ok
        { user := config.user
          password := config.password
          mail := config.mail.getD DEFAULT_MAIL
          host := config.host.getD DEFAULT_HOST
          port := config.port.getD DEFAULT_PORT
          ssl := config.ssl
          path_attachments := config.path_attachments.getD DEFAULT_PATH_ATTACHMENTS }) := by
  unfold mailReaderInit
  by_cases hu : truthy config.user = true <;>
    by_cases hp : truthy config.password = true <;>
      simp [hu, hp]

/-- Witness for C3: a configuration carrying both credentials constructs
successfully with every other field defaulted. -/
theorem mailReaderInit_iff_spec_witness :
    mailReaderInit ⟨some "user", some "secret", none, none, none, none, none⟩ =
      Except.ok ⟨some "user", some "secret", DEFAULT_MAIL, DEFAULT_HOST,
        DEFAULT_PORT, none, DEFAULT_PATH_ATTACHMENTS⟩ :=
  (mailReaderInit_iff_spec ⟨some "user", some "secret", none, none, none, none, none⟩).2
    (Or.inl (by decide))

/-- C4 counterexample: a configuration with a non-empty user and no
password at all constructs successfully, contradicting the claim that
construction fails whenever either credential is missing or empty. -/
theorem mailReaderInit_single_credential_counterexample :
    truthy (Config.password ⟨some "alice", none, none, none, none, none, none⟩) = false ∧
    mailReaderInit ⟨some "alice", none, none, none, none, none, none⟩ =
      Except.ok ⟨some "alice", none, DEFAULT_MAIL, DEFAULT_HOST,
        DEFAULT_PORT, none, DEFAULT_PATH_ATTACHMENTS⟩ := by
  decide

/-- C4 (amended): for every configuration in which user and password are
BOTH missing or empty, MailReader construction fails with the
configuration error. -/
theorem mailReaderInit_both_missing_fails (config : Config)
    (hu : truthy config.user = false) (hp : truthy config.password = false) :
    mailReaderInit config = Except.error "User and password are required" := by
  unfold mailReaderInit
  simp [hu, hp]

/-- Witness for C4: a configuration with no user and an empty password
fails with the configuration error. -/
theorem mailReaderInit_both_missing_fails_witness :
    mailReaderInit ⟨none, some "", none, none, none, none, none⟩ =
      Except.error "User and password are required" :=
  mailReaderInit_both_missing_fails ⟨none, some "", none, none, none, none, none⟩
    (by decide) (by decide)

/-- C5 counterexample: body_process decodes the payload before looking
at the content type, so a non-multipart message that is not text/plain
and whose payload does not decode as text raises UnicodeDecodeError
instead of taking no action. -/
theorem body_process_nonplain_decode_counterexample :
    binaryBody.contentType ≠ "text/plain" ∧
    body_process binaryBody = Except.error PyError.unicodeDecodeError := by
  decide

/-- C5 (amended): body_process decodes the payload unconditionally and
then inspects the content type: when decoding succeeds, a non-text/plain
message produces no log, no write and no error, and a text/plain message
has its decoded body logged; when decoding fails, the decode error
propagates whatever the content type is. -/
theorem body_process_spec (msg : MimePart) (body : String) (e : PyError) :
    (decodePayload msg = Except.ok body → msg.contentType ≠ "text/plain" →
      body_process msg = Except.ok []) ∧
    (decodePayload msg = Except.ok body → msg.contentType = "text/plain" →
      body_process msg = Except.ok [body]) ∧
    (decodePayload msg = Except.error e → body_process msg = Except.error e) := by
  refine ⟨?_, ?_, ?_⟩
  · intro hd hct
    unfold body_process
    rw [hd]
    simp [hct]
  · intro hd hct
    unfold body_process
    rw [hd]
    simp [hct]
  · intro hd
    unfold body_process
    rw [hd]

/-- Witness for C5: the sample text/plain body is decoded and logged. -/
theorem body_process_spec_witness :
    body_process helloBody = Except.ok ["Hello world"] :=
  (body_process_spec helloBody "Hello world" PyError.unicodeDecodeError).2.1
    (by decide) (by decide)

/-- C6: for every server search response whose status is not OK,
search_messages emits the warning "No messages found!", returns the
empty identifier list, and does not raise. -/
theorem search_messages_non_ok (status : String) (data : List ByteStr)
    (h : status ≠ "OK") :
    search_messages status data = Except.ok (["No messages found!"], []) := by
  unfold search_messages
  simp [h]

/-- Witness for C6: a "NO" status yields the warning and no identifiers. -/
theorem search_messages_non_ok_witness :
    search_messages "NO" [[49]] = Except.ok (["No messages found!"], []) :=
  search_messages_non_ok "NO" [[49]] (by decide)

theorem cleanChar_idem (ch : Char) : cleanChar (cleanChar ch) = cleanChar ch := by
  by_cases h : pyIsAlnum ch = true
  · simp [cleanChar, h]
  · have hu : pyIsAlnum '_' = false := by decide
    simp [cleanChar, h, hu]

theorem map_cleanChar_of_alnum (l : List Char)
    (hl : ∀ ch ∈ l, pyIsAlnum ch = true) : l.map cleanChar = l := by
  induction l with
  | nil => rfl
  | cons a t ih =>
    have ha : pyIsAlnum a = true := hl a (List.mem_cons_self a t)
    have ht : ∀ ch ∈ t, pyIsAlnum ch = true :=
      fun ch hch => hl ch (List.mem_cons_of_mem a hch)
    simp [cleanChar, ha, ih ht]

/-- C7: clean_text maps every string to a same-length string, keeping
each alphanumeric character and replacing each other character by an
underscore; it is idempotent, and it is the identity on strings made of
alphanumeric characters only. -/
theorem clean_text_spec (s : String) :
    (clean_text s).length = s.length ∧
    (∀ (i : Nat) (ch : Char), s.data[i]? = some ch →
      (clean_text s).data[i]? = some (if pyIsAlnum ch then ch else '_')) ∧
    clean_text (clean_text s) = clean_text s ∧
    ((∀ ch ∈ s.data, pyIsAlnum ch = true) → clean_text s = s) := by
  refine ⟨?_, ?_, ?_, ?_⟩
  · show (s.data.map cleanChar).length = s.data.length
    exact List.length_map s.data cleanChar
  · intro i ch h
    have hdata : (clean_text s).data = s.data.map cleanChar := rfl
    rw [hdata, List.getElem?_map, h]
    rfl
  · have hfun : cleanChar ∘ cleanChar = cleanChar := funext cleanChar_idem
    show String.mk ((s.data.map cleanChar).map cleanChar) = String.mk (s.data.map cleanChar)
    rw [List.map_map, hfun]
  · intro hall
    exact congrArg String.mk (map_cleanChar_of_alnum s.data hall)

/-- Witness for C7: clean_text is the identity on "abc", and position 2
of clean_text "Q1 Report!" (the space) is an underscore. -/
theorem clean_text_spec_witness :
    clean_text "abc" = "abc" ∧ (clean_text "Q1 Report!").data[2]? = some '_' :=
  ⟨(clean_text_spec "abc").2.2.2 (by decide),
   ((clean_text_spec "Q1 Report!").2.1 2 ' ' (by decide)).trans (by decide)⟩

/-- C8 counterexample: an attachment part that carries no filename
produces no file write at all (and no log line), contradicting the claim
that an attachment part produces exactly one file write. -/
theorem multipart_process_attachment_no_filename_counterexample :
    pyIn "attachment" (pyStr noNamePart.contentDisposition) = true ∧
    multipart_process sampleReader ⟨[]⟩ noNamePart "Subject" =
      Except.ok (⟨[]⟩, ⟨[], []⟩) := by
  decide

/-- C8 (amended): each part of a multipart message is dispatched
independently: a text/plain part whose disposition does not contain
"attachment" and whose payload decodes produces exactly one log line and
no file; a part whose disposition contains "attachment" and that carries
a non-empty filename produces, when the bare sanitized-subject folder
does not already exist as a directory, exactly one file write and no log
line; a part that is neither text/plain nor an attachment produces
neither a log line nor a file. -/
theorem multipart_process_dispatch (rd : MailReader) (fs : FS) (part : MimePart)
    (subject body f : String) (b : ByteStr) :
    (part.contentType = "text/plain" →
      pyIn "attachment" (pyStr part.contentDisposition) = false →
      decodePayload part = Except.ok body →
      multipart_process rd fs part subject = Except.ok (fs, ⟨[body], []⟩)) ∧
    (pyIn "attachment" (pyStr part.contentDisposition) = true →
      part.filename = some f → f ≠ "" → part.payloadBytes = some b →
      isdir fs (clean_text subject) = false →
      ∃ fs2 : FS, multipart_process rd fs part subject =
        Except.ok (fs2,
          ⟨[], [(rd.path_attachments ++ "/" ++ clean_text subject ++ "/" ++ f, b)]⟩)) ∧
    (part.contentType ≠ "text/plain" →
      pyIn "attachment" (pyStr part.contentDisposition) = false →
      multipart_process rd fs part subject = Except.ok (fs, ⟨[], []⟩)) := by
  refine ⟨?_, ?_, ?_⟩
  · intro hct hcd hd
    unfold multipart_process
    simp [hct, hcd, hd, Except.toOption]
  · intro hcd hf hne hb hdir
    obtain ⟨fs2, heq, _, _⟩ :=
      download_attachment_ok_aux rd fs part subject f b hf hne hb hdir
    refine ⟨fs2, ?_⟩
    unfold multipart_process
    simp [hcd, heq]
  · intro hct hcd
    unfold multipart_process
    simp [hct, hcd]

/-- Witness for C8: in one message, the inline text part logs once and
writes nothing, the attachment part writes one file and logs nothing,
and the text/html inline part does neither. -/
theorem multipart_process_dispatch_witness :
    multipart_process sampleReader ⟨[]⟩ helloPart "Q1 Report!" =
      Except.ok (⟨[]⟩, ⟨["Hello world"], []⟩) ∧
    (∃ fs2 : FS, multipart_process sampleReader ⟨[]⟩ samplePdf "Q1 Report!" =
      Except.ok (fs2,
        ⟨[], [(sampleReader.path_attachments ++ "/" ++ clean_text "Q1 Report!" ++
                "/" ++ "report.pdf", [37, 80, 68, 70])]⟩)) ∧
    multipart_process sampleReader ⟨[]⟩ htmlPart "Q1 Report!" =
      Except.ok (⟨[]⟩, ⟨[], []⟩) :=
  ⟨(multipart_process_dispatch sampleReader ⟨[]⟩ helloPart "Q1 Report!"
      "Hello world" "" []).1 (by decide) (by decide) (by decide),
   (multipart_process_dispatch sampleReader ⟨[]⟩ samplePdf "Q1 Report!"
      "" "report.pdf" [37, 80, 68, 70]).2.1 (by decide) rfl (by decide) rfl (by decide),
   (multipart_process_dispatch sampleReader ⟨[]⟩ htmlPart "Q1 Report!"
      "" "" []).2.2 (by decide) (by decide)⟩

/-- C9: when the server answers OK with an empty data field, the split
of the empty byte string yields the one-element list holding the empty
identifier, so search_messages returns [b""] rather than the empty list,
and the fetch loop of process issues exactly one fetch, with the empty
identifier. -/
theorem search_messages_ok_empty_data :
    search_messages "OK" [[]] = Except.ok ([], [[]]) ∧
    search_messages "OK" [[]] ≠ Except.ok ([], []) ∧
    process_fetch_ids "OK" [[]] = Except.ok [[]] := by
  decide

/-- C10 counterexample: a text/plain part with no Content-Disposition
header whose payload fails to decode raises UnboundLocalError instead of
logging the body, so the body is not always logged for such parts. -/
theorem multipart_process_no_disposition_counterexample :
    noDispUndecodable.contentDisposition = none ∧
    noDispUndecodable.contentType = "text/plain" ∧
    multipart_process sampleReader ⟨[]⟩ noDispUndecodable "Subject" =
      Except.error (PyError.unboundLocal "body") := by
  decide

/-- C10 (amended): a part with no Content-Disposition header is treated
as a non-attachment: the missing header is stringified to "None", which
does not contain "attachment"; consequently for such a part of content
type text/plain whose payload decodes as text the body is logged and no
file is written, and for such a part of any other content type nothing
happens. -/
theorem multipart_process_no_disposition (rd : MailReader) (fs : FS)
    (part : MimePart) (subject body : String)
    (hcd : part.contentDisposition = none) :
    pyStr part.contentDisposition = "None" ∧
    pyIn "attachment" (pyStr part.contentDisposition) = false ∧
    (part.contentType = "text/plain" → decodePayload part = Except.ok body →
      multipart_process rd fs part subject = Except.ok (fs, ⟨[body], []⟩)) ∧
    (part.contentType ≠ "text/plain" →
      multipart_process rd fs part subject = Except.ok (fs, ⟨[], []⟩)) := by
  rw [hcd]
  refine ⟨rfl, by decide, ?_, ?_⟩
  · intro hct hd
    unfold multipart_process
    have hpy : pyIn "attachment" (pyStr (none : Option String)) = false := by decide
    simp [hcd, hct, hd, hpy, Except.toOption]
  · intro hct
    unfold multipart_process
    have hpy : pyIn "attachment" (pyStr (none : Option String)) = false := by decide
    simp [hcd, hct, hpy]

/-- Witness for C10: a text/plain part with no Content-Disposition
header and a decodable payload has its body logged and writes no file. -/
theorem multipart_process_no_disposition_witness :
    multipart_process sampleReader ⟨[]⟩ noDispText "Subject" =
      Except.ok (⟨[]⟩, ⟨["hi"], []⟩) :=
  (multipart_process_no_disposition sampleReader ⟨[]⟩ noDispText "Subject" "hi"
    rfl).2.2.1 rfl (by decide)
